import Mathlib

/- Verification of rebrief/st_model_wrappers.py: the bounded-input abstractive
summarization driver (abstractive_summary) and the SummarizationModel wrapper
class. Each model invocation, together with the extraction of the field
summary_text from element 0 of the returned list, is modelled as a function
from the submitted text to either a summary string or a raised exception. -/

namespace Rebrief

/-- An exception raised by a model call: IndexError is the length-exceeded
signal (indexing an empty output list); every other exception is represented
by its message. -/
inductive Exc where
| indexError : Exc
| other : String → Exc
deriving DecidableEq

/-- A model invocation combined with the summary_text extraction: the
submitted text is mapped to either the decoded summary or a raised
exception. -/
abbrev Model := String → Except Exc String

/-- Decidable equality for model-call results, used to evaluate concrete
runs. -/
def exceptDecEq : DecidableEq (Except Exc String) :=
fun a b =>
  match a, b with
  | Except.ok x, Except.ok y =>
    match decEq x y with
    | isTrue h => isTrue (by rw [h])
    | isFalse h => isFalse (by intro hh; cases hh; exact h rfl)
  | Except.ok _, Except.error _ => isFalse (by intro hh; cases hh)
  | Except.error _, Except.ok _ => isFalse (by intro hh; cases hh)
  | Except.error e, Except.error f =>
    match decEq e f with
    | isTrue h => isTrue (by rw [h])
    | isFalse h => isFalse (by intro hh; cases hh; exact h rfl)

instance : DecidableEq (Except Exc String) := exceptDecEq

/-- Helper for Python str.split with a one-character separator, working on the
underlying character list. Matches Python semantics: the empty string splits
to a single empty fragment, separators at the ends produce empty fragments. -/
def splitCharAux (sep : Char) : List Char → List (List Char)
| [] => [[]]
| c :: cs =>
  if c = sep then [] :: splitCharAux sep cs
  else
    match splitCharAux sep cs with
    | [] => [[c]]
    | r :: rs => (c :: r) :: rs

/-- Python text.split(sep) for a one-character separator, as used by the
driver with the newline and period separators. -/
def pySplit (sep : Char) (s : String) : List String :=
(splitCharAux sep s.data).map (fun l => String.mk l)

/-- Python sep.join(parts). -/
def pyJoin (sep : String) : List String → String
| [] => ""
| [s] => s
| s :: t :: rest => s ++ sep ++ pyJoin sep (t :: rest)

/-- The while-sentences loop of abstractive_summary (source lines 130 to 134):
while the sentence list is non-empty, join the first segment_size entries with
the period-space separator, call the model on that segment, collect its
summary, and continue on the rest of the list. The fuel argument makes the
loop total in the embedding: a first component of none means the loop did not
finish within the given fuel, for any fuel. The second component is the list
of texts submitted to the model, in call order. -/
def chunkLoop (model : Model) (segSize : Nat) :
    Nat → List String → Option (Except Exc (List String)) × List String
| _, [] => (some (Except.ok []), [])
| 0, _ :: _ => (none, [])
| fuel + 1, s :: ss =>
  let segment := pyJoin ". " ((s :: ss).take segSize)
  match model segment with
  | Except.error e => (some (Except.error e), [segment])
  | Except.ok summ =>
    match chunkLoop model segSize fuel ((s :: ss).drop segSize) with
    | (none, tr) => (none, segment :: tr)
    | (some (Except.error e), tr) => (some (Except.error e), segment :: tr)
    | (some (Except.ok rest), tr) =>
      (some (Except.ok (summ :: rest)), segment :: tr)

/-- The for-paragraph loop of abstractive_summary (source lines 120 to 134):
each paragraph is submitted to the model; on IndexError the paragraph is split
on the period character, segment_size is computed as the fragment count
divided by 2 (integer division), and the while-sentences loop runs. Any
exception raised inside the while loop, and any non-IndexError exception from
the paragraph call, is not caught and aborts the run. The second component is
the list of texts submitted to the model, in call order. -/
def paraLoop (model : Model) (fuel : Nat) :
    List String → Option (Except Exc (List String)) × List String
| [] => (some (Except.ok []), [])
| p :: ps =>
  match model p with
  | Except.ok s =>
    match paraLoop model fuel ps with
    | (none, tr) => (none, p :: tr)
    | (some (Except.error e), tr) => (some (Except.error e), p :: tr)
    | (some (Except.ok rest), tr) => (some (Except.ok (s :: rest)), p :: tr)
  | Except.error Exc.indexError =>
    match chunkLoop model ((pySplit '.' p).length / 2) fuel (pySplit '.' p) with
    | (none, tr) => (none, p :: tr)
    | (some (Except.error e), tr) => (some (Except.error e), p :: tr)
    | (some (Except.ok segs), tr) =>
      match paraLoop model fuel ps with
      | (none, tr2) => (none, p :: (tr ++ tr2))
      | (some (Except.error e), tr2) => (some (Except.error e), p :: (tr ++ tr2))
      | (some (Except.ok rest), tr2) =>
        (some (Except.ok (segs ++ rest)), p :: (tr ++ tr2))
  | Except.error (Exc.other m) => (some (Except.error (Exc.other m)), [p])

/-- The function abstractive_summary (source lines 111 to 136): try the whole
document; on IndexError split on the newline character, drop empty fragments,
run the paragraph loop, and join the collected summaries with newlines. A
non-IndexError exception from the whole-document call is not caught. The
first component is none when the inner while loop did not finish within the
given fuel; the second component is the list of texts submitted to the
model, in call order. -/
def abstractive_summary (model : Model) (fuel : Nat) (text : String) :
    Option (Except Exc String) × List String :=
match model text with
| Except.ok s => (some (Except.ok s), [text])
| Except.error Exc.indexError =>
  match paraLoop model fuel ((pySplit '\n' text).filter (fun p => p != "")) with
  | (none, tr) => (none, text :: tr)
  | (some (Except.error e), tr) => (some (Except.error e), text :: tr)
  | (some (Except.ok summaries), tr) =>
    (some (Except.ok (pyJoin "\n" summaries)), text :: tr)
| Except.error (Exc.other m) => (some (Except.error (Exc.other m)), [text])

/-- The attrs-decorated SummarizationModel wrapper class (source lines 61 to
105). The load and summarize fields hold uncalled Python function objects;
Python compares function objects by object identity, modelled here as opaque
numeric identities. -/
structure SummarizationModel where
  name : String
  load : Nat
  summarize : Nat
  display_name : String
  description : String

/-- The equality generated for SummarizationModel by the attr.s class
decorator with its default settings: field-wise comparison of all five
attributes in declaration order. -/
def attrsEq (a b : SummarizationModel) : Prop :=
a.name = b.name ∧ a.load = b.load ∧ a.summarize = b.summarize ∧
  a.display_name = b.display_name ∧ a.description = b.description

instance (a b : SummarizationModel) : Decidable (attrsEq a b) := by
  unfold attrsEq; infer_instance

/-- The custom hash method of SummarizationModel (source lines 104 to 105): it
returns the name field itself. -/
def smHash (m : SummarizationModel) : String := m.name

/-- Concrete model exercising paragraph-level recovery: the whole document
raises IndexError, every other input succeeds with the letter S in front. -/
def c1model : Model :=
fun s => if s = "A\nB" then Except.error Exc.indexError else Except.ok ("S" ++ s)

/-- Concrete model exercising the sentence-chunk fallback on a paragraph of
five sentence units: the paragraph raises IndexError, every other input
succeeds. -/
def c2model : Model :=
fun s => if s = "a. b. c. d. e" then Except.error Exc.indexError
  else Except.ok "S"

/-- Concrete model where every input succeeds, for the even-count segment
facts. -/
def c2amodel : Model := fun s => Except.ok ("S" ++ s)

/-- Concrete model exercising the non-terminating fallback: the single
paragraph without a period raises IndexError, everything else succeeds. -/
def c3model : Model :=
fun s => if s = "LONGPARA" then Except.error Exc.indexError else Except.ok "S"

/-- Two adapter values sharing a name but differing in display metadata. -/
def smA : SummarizationModel :=
⟨"abstractive", 0, 0, "Neural Abstractive", "first description"⟩

/-- Companion to smA: same name, different display_name and description. -/
def smB : SummarizationModel :=
⟨"abstractive", 0, 0, "Different Display", "second description"⟩

/-- Two adapter values sharing a name but differing in the load and summarize
function identities. -/
def smC : SummarizationModel :=
⟨"classic_extractive", 1, 2, "Classic Extractive", "text rank"⟩

/-- Companion to smC: same name, different load and summarize identities. -/
def smD : SummarizationModel :=
⟨"classic_extractive", 3, 4, "Classic Extractive", "text rank"⟩

/-- Concrete model where every call raises IndexError, so even the
sentence-level segment still exceeds the budget. -/
def c6model : Model := fun _ => Except.error Exc.indexError

/-- Concrete model that succeeds on the whole document. -/
def c7model : Model := fun _ => Except.ok "whole summary"

/-- Concrete model raising IndexError on the document and a non-IndexError
exception on the second paragraph. -/
def c8model : Model :=
fun s =>
  if s = "A\nB" then Except.error Exc.indexError
  else if s = "B" then Except.error (Exc.other "boom")
  else Except.ok ("S" ++ s)

/-- Concrete model raising IndexError on every input, in particular on the
empty document. -/
def c9model : Model := fun _ => Except.error Exc.indexError

/-- Concrete model raising IndexError on a paragraph that starts with a
period, so its period-split has a leading empty fragment. -/
def c10model : Model :=
fun s => if s = ".a.b.c" then Except.error Exc.indexError else Except.ok "S"

/-- If every paragraph in the list succeeds, the paragraph loop returns the
summaries in order, having submitted exactly the paragraphs. -/
theorem paraLoop_all_ok (model : Model) (g : String → String) (fuel : Nat)
    (ps : List String) (h : ∀ p ∈ ps, model p = Except.ok (g p)) :
    paraLoop model fuel ps = (some (Except.ok (ps.map g)), ps) := by
  induction ps with
  | nil => rfl
  | cons p ps ih =>
    have hp : model p = Except.ok (g p) := h p (by simp)
    have ihh := ih (fun q hq => h q (by simp [hq]))
    simp [paraLoop, hp, ihh]

/-- C1: for a document whose whole-document model call raises the
length-exceeded IndexError while every non-empty fragment obtained by
splitting on the newline character succeeds, abstractive_summary submits the
document once, then each remaining fragment once, in original order, and
returns the fragment summaries joined by newlines in original order. -/
theorem c1_paragraph_recovery (model : Model) (g : String → String)
    (fuel : Nat) (text : String)
    (hdoc : model text = Except.error Exc.indexError)
    (hok : ∀ p ∈ (pySplit '\n' text).filter (fun q => q != ""),
      model p = Except.ok (g p)) :
    abstractive_summary model fuel text =
      (some (Except.ok
        (pyJoin "\n" (((pySplit '\n' text).filter (fun q => q != "")).map g))),
       text :: (pySplit '\n' text).filter (fun q => q != "")) := by
  have h := paraLoop_all_ok model g fuel _ hok
  simp [abstractive_summary, hdoc, h]

/-- Witness for C1 at the concrete document with two paragraphs. -/
theorem c1_witness :
    abstractive_summary c1model 3 "A\nB" =
      (some (Except.ok "SA\nSB"), ["A\nB", "A", "B"]) :=
  c1_paragraph_recovery c1model (fun p => "S" ++ p) 3 "A\nB" (by decide)
    (by decide)

/-- C7: when the whole-document model call succeeds, abstractive_summary
issues exactly that one model call and returns its decoded summary
unmodified. -/
theorem c7_single_call (model : Model) (fuel : Nat) (text s : String)
    (h : model text = Except.ok s) :
    abstractive_summary model fuel text = (some (Except.ok s), [text]) := by
  simp [abstractive_summary, h]

/-- Witness for C7 at the three-sentence scenario document. -/
theorem c7_witness :
    abstractive_summary c7model 5 "Sentence one. Sentence two. Sentence three."
      = (some (Except.ok "whole summary"),
         ["Sentence one. Sentence two. Sentence three."]) :=
  c7_single_call c7model 5 "Sentence one. Sentence two. Sentence three."
    "whole summary" rfl

/-- C9: on the empty document the driver raises no error: if the model call
on the empty string raises the length-exceeded IndexError, the split yields
only an empty fragment which is discarded, and the returned summary is the
empty string; if the model call succeeds, its summary is returned. -/
theorem c9_empty_document (model : Model) (fuel : Nat) :
    (model "" = Except.error Exc.indexError →
      abstractive_summary model fuel "" = (some (Except.ok ""), [""])) ∧
    (∀ s, model "" = Except.ok s →
      abstractive_summary model fuel "" = (some (Except.ok s), [""])) := by
  constructor
  · intro h
    have hps : (pySplit '\n' "").filter (fun q => q != "") = [] := rfl
    simp [abstractive_summary, h, hps, paraLoop, pyJoin]
  · intro s h
    simp [abstractive_summary, h]

/-- Witness for C9 at a model that raises IndexError on the empty string. -/
theorem c9_witness :
    abstractive_summary c9model 2 "" = (some (Except.ok ""), [""]) :=
  (c9_empty_document c9model 2).1 rfl

/-- C5: the caching hash of an adapter is its name field itself, so it is
determined by name alone and two adapters with the same name hash
identically whatever their other fields are. -/
theorem c5_hash_by_name (a b : SummarizationModel) (h : a.name = b.name) :
    smHash a = a.name ∧ smHash a = smHash b := by
  exact ⟨rfl, by simpa [smHash] using h⟩

/-- Witness for C5 at two adapters sharing a name but differing in the load
and summarize function identities. -/
theorem c5_witness : smHash smC = smC.name ∧ smHash smC = smHash smD :=
  c5_hash_by_name smC smD rfl

/-- C4 counterexample: two adapters with the same name but different
display_name and description do not compare equal under the generated
field-wise equality. -/
theorem c4_counterexample : smA.name = smB.name ∧ ¬ attrsEq smA smB := by
  exact ⟨rfl, by decide⟩

/-- C4 (amended): two adapters with the same name receive the same caching
hash value, but the attr.s generated equality also compares load, summarize,
display_name and description, so same-name adapters compare equal exactly
when those four fields also agree. -/
theorem c4_hash_agrees_eq_compares_all (a b : SummarizationModel)
    (h : a.name = b.name) :
    smHash a = smHash b ∧
      (attrsEq a b ↔ a.load = b.load ∧ a.summarize = b.summarize ∧
        a.display_name = b.display_name ∧ a.description = b.description) := by
  constructor
  · simpa [smHash] using h
  · unfold attrsEq
    simp [h]

/-- Witness for C4 at the two same-name adapters with differing display
metadata. -/
theorem c4_witness :
    smHash smA = smHash smB ∧
      (attrsEq smA smB ↔ smA.load = smB.load ∧ smA.summarize = smB.summarize ∧
        smA.display_name = smB.display_name ∧
        smA.description = smB.description) :=
  c4_hash_agrees_eq_compares_all smA smB rfl

/-- C2 counterexample: a paragraph of 5 sentence units that raises the
length-exceeded IndexError is cut into 3 segments (of 2, 2 and 1 sentence
units), not 2: the trace shows the document call, the paragraph call and then
3 segment calls, so its length is 5 rather than the 4 the claim implies. -/
theorem c2_counterexample :
    (abstractive_summary c2model 8 "a. b. c. d. e").2 =
      ["a. b. c. d. e", "a. b. c. d. e", "a.  b", " c.  d", " e"] ∧
    ¬ (abstractive_summary c2model 8 "a. b. c. d. e").2.length = 4 := by
  constructor
  · rfl
  · decide

/-- C2 (amended): the fallback repeatedly takes blocks of segment_size (the
sentence count divided by 2, rounding down); when the sentence count is even
this yields exactly 2 segments, the first and second halves, each rejoined
with period-space and submitted in order, their summaries collected in
order. In particular a 10-sentence paragraph yields segments of 5 and 5. -/
theorem c2_amended_even_split (model : Model) (g : String → String)
    (sents : List String) (fuel : Nat)
    (hok : ∀ s, model s = Except.ok (g s))
    (h2 : 2 ≤ sents.length) (heven : sents.length % 2 = 0) :
    chunkLoop model (sents.length / 2) (fuel + 2) sents =
      (some (Except.ok [g (pyJoin ". " (sents.take (sents.length / 2))),
                        g (pyJoin ". " (sents.drop (sents.length / 2)))]),
       [pyJoin ". " (sents.take (sents.length / 2)),
        pyJoin ". " (sents.drop (sents.length / 2))]) := by
  obtain ⟨s, ss, rfl⟩ : ∃ s ss, sents = s :: ss := by
    cases sents with
    | nil => simp at h2
    | cons s ss => exact ⟨s, ss, rfl⟩
  have hdlen :
      ((s :: ss).drop ((s :: ss).length / 2)).length = (s :: ss).length / 2 := by
    rw [List.length_drop]; omega
  obtain ⟨t, ts, hd⟩ :
      ∃ t ts, (s :: ss).drop ((s :: ss).length / 2) = t :: ts := by
    cases hdd : (s :: ss).drop ((s :: ss).length / 2) with
    | nil =>
      exfalso
      have h0 : ((s :: ss).drop ((s :: ss).length / 2)).length = 0 := by
        rw [hdd]; rfl
      rw [hdlen] at h0
      omega
    | cons t ts => exact ⟨t, ts, rfl⟩
  have htlen : (t :: ts).length = (s :: ss).length / 2 := by
    rw [← hd]; exact hdlen
  have htake2 : (t :: ts).take ((s :: ss).length / 2) = t :: ts :=
    List.take_of_length_le (le_of_eq htlen)
  have hdrop2 : (t :: ts).drop ((s :: ss).length / 2) = [] :=
    List.drop_eq_nil_of_le (le_of_eq htlen)
  simp only [chunkLoop, hok, hd, htake2, hdrop2]

/-- Witness for C2 (amended) at a 10-sentence list: segments of 5 and 5. -/
theorem c2_amended_witness :
    chunkLoop c2amodel 5 7
      ["s1", "s2", "s3", "s4", "s5", "s6", "s7", "s8", "s9", "s10"] =
      (some (Except.ok ["Ss1. s2. s3. s4. s5", "Ss6. s7. s8. s9. s10"]),
       ["s1. s2. s3. s4. s5", "s6. s7. s8. s9. s10"]) :=
  c2_amended_even_split c2amodel (fun s => "S" ++ s)
    ["s1", "s2", "s3", "s4", "s5", "s6", "s7", "s8", "s9", "s10"] 5
    (fun _ => rfl) (by decide) (by decide)

/-- When segment_size is 0 and the model accepts the empty segment, the
while-sentences loop never consumes the list: for every fuel the loop is
still running. -/
theorem chunkLoop_zero_stuck (model : Model) (w : String)
    (h0 : model "" = Except.ok w) (fuel : Nat) :
    ∀ (s : String) (ss : List String),
      (chunkLoop model 0 fuel (s :: ss)).1 = none := by
  induction fuel with
  | zero => intro s ss; rfl
  | succ fuel ih =>
    intro s ss
    have hrec := ih s ss
    cases hcl : chunkLoop model 0 fuel (s :: ss) with
    | mk fst snd =>
      rw [hcl] at hrec
      simp only at hrec
      subst hrec
      have hj : pyJoin ". " ([] : List String) = "" := rfl
      simp [chunkLoop, hj, h0, hcl]

/-- C3 (refuted: the code does not terminate here): on a document that is a
single paragraph without a period which raises the length-exceeded
IndexError, segment_size is 0, the loop resubmits the empty segment forever,
and abstractive_summary finishes within no amount of fuel. -/
theorem c3_fallback_nontermination :
    ∀ fuel : Nat, (abstractive_summary c3model fuel "LONGPARA").1 = none := by
  intro fuel
  have h0 : c3model "" = Except.ok "S" := rfl
  have hstuck := chunkLoop_zero_stuck c3model "S" h0 fuel "LONGPARA" []
  have hdoc : c3model "LONGPARA" = Except.error Exc.indexError := rfl
  have hps : (pySplit '\n' "LONGPARA").filter (fun q => q != "") =
      ["LONGPARA"] := rfl
  have hsent : pySplit '.' "LONGPARA" = ["LONGPARA"] := rfl
  cases hcl : chunkLoop c3model 0 fuel ["LONGPARA"] with
  | mk fst snd =>
    rw [hcl] at hstuck
    simp only at hstuck
    subst hstuck
    simp [abstractive_summary, paraLoop, hdoc, hps, hsent, hcl]

/-- C6: with the whole document and its first remaining paragraph both
raising the length-exceeded IndexError, a sentence-level segment that still
raises it aborts the whole call with that error (recovery exhausted), while a
fallback that succeeds on every segment is recovered: the collected segment
summaries are joined with the remaining paragraph summaries into the final
result, so the document-level and paragraph-level failures are caught. -/
theorem c6_surfacing (model : Model) (fuel : Nat) (text p : String)
    (ps : List String)
    (hdoc : model text = Except.error Exc.indexError)
    (hpars : (pySplit '\n' text).filter (fun q => q != "") = p :: ps)
    (hp : model p = Except.error Exc.indexError) :
    ((chunkLoop model ((pySplit '.' p).length / 2) fuel (pySplit '.' p)).1 =
        some (Except.error Exc.indexError) →
      (abstractive_summary model fuel text).1 =
        some (Except.error Exc.indexError)) ∧
    (∀ segs rest,
      (chunkLoop model ((pySplit '.' p).length / 2) fuel (pySplit '.' p)).1 =
        some (Except.ok segs) →
      (paraLoop model fuel ps).1 = some (Except.ok rest) →
      (abstractive_summary model fuel text).1 =
        some (Except.ok (pyJoin "\n" (segs ++ rest)))) := by
  constructor
  · intro hchunk
    cases hcl : chunkLoop model ((pySplit '.' p).length / 2) fuel
        (pySplit '.' p) with
    | mk fst snd =>
      rw [hcl] at hchunk
      simp only at hchunk
      subst hchunk
      simp [abstractive_summary, paraLoop, hdoc, hpars, hp, hcl]
  · intro segs rest hchunk hrest
    cases hcl : chunkLoop model ((pySplit '.' p).length / 2) fuel
        (pySplit '.' p) with
    | mk fst snd =>
      rw [hcl] at hchunk
      simp only at hchunk
      subst hchunk
      cases hpl : paraLoop model fuel ps with
      | mk fst2 snd2 =>
        rw [hpl] at hrest
        simp only at hrest
        subst hrest
        simp [abstractive_summary, paraLoop, hdoc, hpars, hp, hcl, hpl]

/-- Witness for C6: a model that raises IndexError on every input, so the
sentence-level segment still fails and the error surfaces to the caller. -/
theorem c6_witness :
    (abstractive_summary c6model 4 "Px").1 =
      some (Except.error Exc.indexError) :=
  (c6_surfacing c6model 4 "Px" "Px" [] rfl rfl rfl).1 rfl

/-- A non-IndexError exception raised on a paragraph, after any run of
succeeding paragraphs, aborts the paragraph loop with that exception. -/
theorem paraLoop_other_error_aborts (model : Model) (g : String → String)
    (fuel : Nat) (m p : String) (ps2 : List String)
    (hp : model p = Except.error (Exc.other m)) :
    ∀ ps1 : List String, (∀ q ∈ ps1, model q = Except.ok (g q)) →
      (paraLoop model fuel (ps1 ++ p :: ps2)).1 =
        some (Except.error (Exc.other m)) := by
  intro ps1
  induction ps1 with
  | nil => intro _; simp [paraLoop, hp]
  | cons q qs ih =>
    intro h
    have hq : model q = Except.ok (g q) := h q (by simp)
    have ihh := ih (fun r hr => h r (by simp [hr]))
    cases hpl : paraLoop model fuel (qs ++ p :: ps2) with
    | mk fst snd =>
      rw [hpl] at ihh
      simp only at ihh
      subst ihh
      simp [paraLoop, hq, hpl]

/-- C8: a failure other than the length-exceeded IndexError is never caught:
raised on the whole-document call it is returned to the caller directly, and
raised on a paragraph call (after any succeeding paragraphs) it likewise
aborts the whole call with that same error. -/
theorem c8_other_errors_propagate (model : Model) (fuel : Nat)
    (text m : String) (g : String → String) :
    (model text = Except.error (Exc.other m) →
      (abstractive_summary model fuel text).1 =
        some (Except.error (Exc.other m))) ∧
    (∀ ps1 p ps2, model text = Except.error Exc.indexError →
      (pySplit '\n' text).filter (fun q => q != "") = ps1 ++ p :: ps2 →
      (∀ q ∈ ps1, model q = Except.ok (g q)) →
      model p = Except.error (Exc.other m) →
      (abstractive_summary model fuel text).1 =
        some (Except.error (Exc.other m))) := by
  constructor
  · intro h
    simp [abstractive_summary, h]
  · intro ps1 p ps2 hdoc hpars hok hp
    have hprop := paraLoop_other_error_aborts model g fuel m p ps2 hp ps1 hok
    cases hpl : paraLoop model fuel (ps1 ++ p :: ps2) with
    | mk fst snd =>
      rw [hpl] at hprop
      simp only at hprop
      subst hprop
      simp [abstractive_summary, hdoc, hpars, hpl]

/-- Witness for C8: the document splits into paragraphs A and B, A succeeds
and B raises a non-IndexError exception that surfaces to the caller. -/
theorem c8_witness :
    (abstractive_summary c8model 3 "A\nB").1 =
      some (Except.error (Exc.other "boom")) :=
  (c8_other_errors_propagate c8model 3 "A\nB" "boom" (fun s => "S" ++ s)).2
    ["A"] "B" [] rfl rfl (by decide) rfl

/-- The splitter never returns an empty fragment list. -/
theorem splitCharAux_ne_nil (sep : Char) (l : List Char) :
    splitCharAux sep l ≠ [] := by
  induction l with
  | nil => simp [splitCharAux]
  | cons c cs ih =>
    simp only [splitCharAux]
    split
    · simp
    · cases h : splitCharAux sep cs with
      | nil => simp
      | cons r rs => simp

/-- Python split never returns an empty fragment list. -/
theorem pySplit_ne_nil (sep : Char) (s : String) : pySplit sep s ≠ [] := by
  unfold pySplit
  simp [splitCharAux_ne_nil]

/-- The first text the while-sentences loop submits is the first segSize
fragments of the sentence list, rejoined with period-space, with no
filtering of empty fragments. -/
theorem chunkLoop_trace_head (model : Model) (k fuel : Nat)
    (s : String) (ss : List String) :
    (chunkLoop model k (fuel + 1) (s :: ss)).2.head? =
      some (pyJoin ". " ((s :: ss).take k)) := by
  cases hm : model (pyJoin ". " ((s :: ss).take k)) with
  | error e => simp [chunkLoop, hm]
  | ok summ =>
    cases hcl : chunkLoop model k fuel ((s :: ss).drop k) with
    | mk fst snd =>
      cases fst with
      | none => simp [chunkLoop, hm, hcl]
      | some r =>
        cases r with
        | error e => simp [chunkLoop, hm, hcl]
        | ok rest => simp [chunkLoop, hm, hcl]

/-- C10: when the single remaining paragraph raises the length-exceeded
IndexError, the sentence list is the raw period-split of the paragraph:
empty fragments are not discarded, they count toward the length from which
segment_size is computed, and the first submitted segment is the rejoined
take of that unfiltered list, in contrast to the newline split whose empty
fragments are filtered out before the paragraph loop. -/
theorem c10_unfiltered_sentence_fragments (model : Model) (fuel : Nat)
    (text p : String)
    (hdoc : model text = Except.error Exc.indexError)
    (hpars : (pySplit '\n' text).filter (fun q => q != "") = [p])
    (hp : model p = Except.error Exc.indexError) :
    (abstractive_summary model (fuel + 1) text).2.take 2 = [text, p] ∧
    ((abstractive_summary model (fuel + 1) text).2.drop 2).head? =
      some (pyJoin ". "
        ((pySplit '.' p).take ((pySplit '.' p).length / 2))) := by
  obtain ⟨s, ss, hsent⟩ : ∃ s ss, pySplit '.' p = s :: ss := by
    cases hq : pySplit '.' p with
    | nil => exact absurd hq (pySplit_ne_nil '.' p)
    | cons s ss => exact ⟨s, ss, rfl⟩
  have hhead :=
    chunkLoop_trace_head model ((pySplit '.' p).length / 2) fuel s ss
  rw [← hsent] at hhead
  cases hcl : chunkLoop model ((pySplit '.' p).length / 2) (fuel + 1)
      (pySplit '.' p) with
  | mk res tr =>
    have htr : tr.head? =
        some (pyJoin ". "
          ((pySplit '.' p).take ((pySplit '.' p).length / 2))) := by
      rw [hcl] at hhead
      exact hhead
    rcases res with _ | r
    · constructor
      · simp [abstractive_summary, paraLoop, hdoc, hpars, hp, hcl]
      · simp [abstractive_summary, paraLoop, hdoc, hpars, hp, hcl, htr]
    · rcases r with e | segs
      · constructor
        · simp [abstractive_summary, paraLoop, hdoc, hpars, hp, hcl]
        · simp [abstractive_summary, paraLoop, hdoc, hpars, hp, hcl, htr]
      · constructor
        · simp [abstractive_summary, paraLoop, hdoc, hpars, hp, hcl]
        · simp [abstractive_summary, paraLoop, hdoc, hpars, hp, hcl, htr]

/-- Witness for C10 at a paragraph whose period-split starts with an empty
fragment: the fragment is counted and included in the first segment. -/
theorem c10_witness :
    (abstractive_summary c10model 3 ".a.b.c").2.take 2 =
      [".a.b.c", ".a.b.c"] ∧
    ((abstractive_summary c10model 3 ".a.b.c").2.drop 2).head? =
      some (pyJoin ". "
        ((pySplit '.' ".a.b.c").take ((pySplit '.' ".a.b.c").length / 2))) :=
  c10_unfiltered_sentence_fragments c10model 2 ".a.b.c" ".a.b.c" rfl rfl rfl

end Rebrief
